import Mathlib

/-!
Shallow embedding of the cosmovisor process supervision logic from
cosmovisor/process.go: the Launcher Run control path, the race in
WaitForUpgradeOrExit, the doBackup step, the mutex-guarded WaitResult
cell, and the signal-relay goroutine.

External collaborators (executable resolution, process spawning, the
upgrade file watcher, the directory-copy library and the DoUpgrade
step) are modelled by the results they return, supplied through a
RunEnv record; the control flow over those results is translated
directly from the source. Sequencing of side effects on the main
control path is recorded as a trace of Event values.
-/

namespace Cosmovisor

/-- Go errors are modelled as `Option Err`: `none` is the nil error,
`some s` a non-nil error whose message is `s`. -/
abbrev Err := String

/-- UpgradeInfo payload produced by the upgrade file watcher (external to
process.go); only its identity matters to the control flow here. -/
structure UpgradeInfo where
  name : String
  info : String
deriving DecidableEq, Repr

/-- WaitResult from process.go: the mutex-guarded cell holding the first
observed outcome. The mutex serialises the method calls, so the cell is
modelled as a pure record and each method as a state transformer; a
schedule of mutex acquisitions is a sequence of such calls. -/
structure WaitResult where
  err : Option Err
  info : Option UpgradeInfo
deriving DecidableEq, Repr

/-- AsResult from process.go: reads the pair protected by the mutex. -/
def WaitResult.AsResult (u : WaitResult) : Option UpgradeInfo × Option Err :=
  (u.info, u.err)

/-- SetError from process.go: under the mutex, the error field is
assigned myErr exactly when u.info is nil and myErr is non-nil. -/
def WaitResult.SetError (u : WaitResult) (myErr : Option Err) : WaitResult :=
  if u.info = none ∧ myErr ≠ none then { u with err := myErr } else u

/-- Calendar date supplying the wall clock read by time.Now() in doBackup. -/
structure Date where
  year : Nat
  month : Nat
  day : Nat
deriving DecidableEq, Repr

/-- Two-digit zero padding, as Go prints zero-padded layout chunks. -/
def pad2 (n : Nat) : String :=
  if n < 10 then "0" ++ toString n else toString n

/-- Go time.Format layout interpretation (package time, external library),
restricted to the numeric chunks of the reference time that can occur in
the layouts used here: "2006" prints the year, "01" the zero-padded
month, "02" the zero-padded day, "06" the two-digit year, "1" the
unpadded month, "2" the unpadded day; any other character is a literal.
Chunks are scanned left to right, longest match first, exactly as in the
nextStdChunk scanner of package time. -/
def goFormatChars : List Char → Date → String
  | [], _ => ""
  | '2' :: '0' :: '0' :: '6' :: rest, d => toString d.year ++ goFormatChars rest d
  | '0' :: '1' :: rest, d => pad2 d.month ++ goFormatChars rest d
  | '0' :: '2' :: rest, d => pad2 d.day ++ goFormatChars rest d
  | '0' :: '6' :: rest, d => pad2 (d.year % 100) ++ goFormatChars rest d
  | '1' :: rest, d => toString d.month ++ goFormatChars rest d
  | '2' :: rest, d => toString d.day ++ goFormatChars rest d
  | c :: rest, d => String.singleton c ++ goFormatChars rest d

/-- Go dt.Format layout applied to a date. -/
def goTimeFormat (layout : String) (d : Date) : String :=
  goFormatChars layout.toList d

/-- Configuration values consumed by process.go: the home directory, the
backup switch and the expected upgrade name (the UpgradeName method). -/
structure Config where
  Home : String
  UnsafeSkipBackup : Bool
  UpgradeName : String
deriving DecidableEq, Repr

/-- Side effects performed on the main control path of Run, in order. -/
inductive Event where
  | startChild
  | killChild
  | waitedChild
  | stopWatcher
  | copyDir (src : String) (dst : String)
  | upgradeStep
deriving DecidableEq, Repr

/-- Which arm of the select in WaitForUpgradeOrExit fires first: the
MonitorUpdate channel of the watcher, or the cmdDone channel fed by the
cmd.Wait goroutine (carrying the exit error of the child). -/
inductive RaceWinner where
  | upgradeFirst
  | exited (err : Option Err)
deriving DecidableEq, Repr

/-- Results returned by the external collaborators during one run:
CurrentBin and EnsureBinary, the cmd.Start call, the select race, the
synchronous fw.CheckUpdate probe (a boolean match per upgrade name, per
the watcher contract), the kill call, the copy.Copy call, the DoUpgrade
step, and the current date. -/
structure RunEnv where
  currentBin : Except Err String
  ensureBinary : Option Err
  startErr : Option Err
  race : RaceWinner
  checkUpdate : String → Bool
  killErr : Option Err
  copyErr : Option Err
  doUpgradeErr : Option Err
  now : Date

/-- WaitForUpgradeOrExit from process.go. On the MonitorUpdate arm the
kill error is discarded (underscore assignment) and neither the wait nor
fw.Stop is reached on the main path; on the cmdDone arm the child has
been waited on, fw.Stop runs, a nil exit error returns (false, nil), and
a non-nil one is surfaced only when fw.CheckUpdate does not match. -/
def WaitForUpgradeOrExit (cfg : Config) (env : RunEnv) :
    (Bool × Option Err) × List Event :=
  let currentUpgradeName := cfg.UpgradeName
  match env.race with
  | RaceWinner.upgradeFirst =>
    ((true, none), [Event.killChild])
  | RaceWinner.exited e =>
    match e with
    | none => ((false, none), [Event.waitedChild, Event.stopWatcher])
    | some err =>
      if env.checkUpdate currentUpgradeName then
        ((true, none), [Event.waitedChild, Event.stopWatcher])
      else
        ((false, some err), [Event.waitedChild, Event.stopWatcher])

/-- doBackup from process.go: when UnsafeSkipBackup is not set, copy
Home+"/data" to the destination built from the layout "01-22-2000",
wrapping any copy error; otherwise do nothing and return nil. -/
def doBackup (cfg : Config) (now : Date) (copyErr : Option Err) :
    Option Err × List Event :=
  if !cfg.UnsafeSkipBackup then
    let dst := cfg.Home ++ "/data" ++ "-backup-" ++ goTimeFormat "01-22-2000" now
    match copyErr with
    | some e =>
      (some ("error while taking data backup: " ++ e),
        [Event.copyDir (cfg.Home ++ "/data") dst])
    | none => (none, [Event.copyDir (cfg.Home ++ "/data") dst])
  else
    (none, [])

/-- Run from process.go (the Launcher method), over the collaborator
results in env: resolve and validate the binary, start the child
(recorded as startChild; the signal-relay goroutine is modelled
separately by signalRelay), run the WaitForUpgradeOrExit race, and on
the needs-update path run doBackup and then return true paired with the
result of the DoUpgrade step. -/
def Run (cfg : Config) (args : List String) (env : RunEnv) :
    (Bool × Option Err) × List Event :=
  match env.currentBin with
  | Except.error e => ((false, some ("error creating symlink to genesis: " ++ e)), [])
  | Except.ok bin =>
    match env.ensureBinary with
    | some e => ((false, some ("current binary is invalid: " ++ e)), [])
    | none =>
      match env.startErr with
      | some e =>
        ((false, some ("launching process " ++ bin ++ " " ++
          String.intercalate " " args ++ " failed: " ++ e)), [])
      | none =>
        let w := WaitForUpgradeOrExit cfg env
        if w.1.2 ≠ none ∨ w.1.1 = false then
          ((false, w.1.2), Event.startChild :: w.2)
        else
          let b := doBackup cfg env.now env.copyErr
          match b.1 with
          | some e => ((false, some e), Event.startChild :: w.2 ++ b.2)
          | none =>
            ((true, env.doUpgradeErr),
              Event.startChild :: w.2 ++ b.2 ++ [Event.upgradeStep])

/-- Termination signals the relay goroutine subscribes to through
signal.Notify: SIGQUIT and SIGTERM. -/
inductive GoSignal where
  | SIGQUIT
  | SIGTERM
deriving DecidableEq, Repr

/-- Fate of the relay goroutine: never received a signal, forwarded one
signal to the child, or called log.Fatal because forwarding failed
(which terminates the whole supervisor process). -/
inductive RelayOutcome where
  | idle
  | forwarded (s : GoSignal)
  | fatal (s : GoSignal) (e : Err)
deriving DecidableEq, Repr

/-- Signal-relay goroutine spawned by Run: it receives the first signal
delivered to the channel, forwards it with cmd.Process.Signal, and a
non-nil forwarding error hits log.Fatal; the body has no loop, so the
goroutine ends after one signal. Argument delivered is the sequence of
signals delivered to the channel, forwardResult the result of the
forwarding call per signal; the first component returned is the list of
signals actually forwarded to the child. -/
def signalRelay (delivered : List GoSignal) (forwardResult : GoSignal → Option Err) :
    List GoSignal × RelayOutcome :=
  match delivered with
  | [] => ([], RelayOutcome.idle)
  | s :: _ =>
    match forwardResult s with
    | none => ([s], RelayOutcome.forwarded s)
    | some e => ([s], RelayOutcome.fatal s e)

/-- Example configuration: backups enabled, expected upgrade name v2. -/
def cfgA : Config := { Home := "/data/home", UnsafeSkipBackup := false, UpgradeName := "v2" }

/-- Example configuration with backups disabled. -/
def cfgSkip : Config := { Home := "/data/home", UnsafeSkipBackup := true, UpgradeName := "v2" }

/-- Run environment in which the upgrade notification fires first and
every collaborator succeeds. -/
def envUpg : RunEnv :=
  { currentBin := Except.ok "/bin/gaiad", ensureBinary := none, startErr := none,
    race := RaceWinner.upgradeFirst, checkUpdate := fun _ => true, killErr := none,
    copyErr := none, doUpgradeErr := none, now := ⟨2021, 3, 5⟩ }

/-- Run environment in which the child crashes and the synchronous
re-check finds a matching upgrade artifact. -/
def envCrashMatch : RunEnv :=
  { envUpg with race := RaceWinner.exited (some "panic in upgrade handler") }

/-- Run environment in which the child crashes and no matching upgrade
artifact exists. -/
def envCrashNoMatch : RunEnv :=
  { envUpg with
    race := RaceWinner.exited (some "exit status 1")
    checkUpdate := fun _ => false }

/-- Run environment in which the child exits cleanly with no upgrade. -/
def envClean : RunEnv :=
  { envUpg with
    race := RaceWinner.exited none
    checkUpdate := fun _ => false }

/-- Run environment in which the upgrade fires first but the DoUpgrade
step fails. -/
def envUpgFail : RunEnv := { envUpg with doUpgradeErr := some "upgrade binary not found" }

/-- Run environment in which the upgrade fires first but the backup copy
fails. -/
def envCopyFail : RunEnv := { envUpg with copyErr := some "permission denied" }

/-- Reduction of WaitForUpgradeOrExit when the MonitorUpdate arm wins. -/
lemma wfuoe_upgradeFirst (cfg : Config) (env : RunEnv)
    (hrace : env.race = RaceWinner.upgradeFirst) :
    WaitForUpgradeOrExit cfg env = ((true, none), [Event.killChild]) := by
  simp [WaitForUpgradeOrExit, hrace]

/-- Reduction of WaitForUpgradeOrExit on a clean child exit. -/
lemma wfuoe_exited_clean (cfg : Config) (env : RunEnv)
    (hrace : env.race = RaceWinner.exited none) :
    WaitForUpgradeOrExit cfg env =
      ((false, none), [Event.waitedChild, Event.stopWatcher]) := by
  simp [WaitForUpgradeOrExit, hrace]

/-- Reduction of WaitForUpgradeOrExit on a failed child exit whose
synchronous re-check matches the expected upgrade name. -/
lemma wfuoe_exited_match (cfg : Config) (env : RunEnv) (e : Err)
    (hrace : env.race = RaceWinner.exited (some e))
    (hchk : env.checkUpdate cfg.UpgradeName = true) :
    WaitForUpgradeOrExit cfg env =
      ((true, none), [Event.waitedChild, Event.stopWatcher]) := by
  simp [WaitForUpgradeOrExit, hrace, hchk]

/-- Reduction of WaitForUpgradeOrExit on a failed child exit whose
synchronous re-check does not match. -/
lemma wfuoe_exited_nomatch (cfg : Config) (env : RunEnv) (e : Err)
    (hrace : env.race = RaceWinner.exited (some e))
    (hchk : env.checkUpdate cfg.UpgradeName = false) :
    WaitForUpgradeOrExit cfg env =
      ((false, some e), [Event.waitedChild, Event.stopWatcher]) := by
  simp [WaitForUpgradeOrExit, hrace, hchk]

/-- Reduction of Run past the successful start preamble. -/
lemma run_of_wait (cfg : Config) (args : List String) (env : RunEnv) (b : String)
    (hbin : env.currentBin = Except.ok b)
    (hens : env.ensureBinary = none)
    (hstart : env.startErr = none) :
    Run cfg args env =
      (let w := WaitForUpgradeOrExit cfg env
       if w.1.2 ≠ none ∨ w.1.1 = false then
         ((false, w.1.2), Event.startChild :: w.2)
       else
         let b := doBackup cfg env.now env.copyErr
         match b.1 with
         | some e => ((false, some e), Event.startChild :: w.2 ++ b.2)
         | none =>
           ((true, env.doUpgradeErr),
             Event.startChild :: w.2 ++ b.2 ++ [Event.upgradeStep])) := by
  simp only [Run, hbin, hens, hstart]

/-- Outcome of Run on a clean child exit. -/
lemma run_exited_clean (cfg : Config) (args : List String) (env : RunEnv) (b : String)
    (hbin : env.currentBin = Except.ok b)
    (hens : env.ensureBinary = none)
    (hstart : env.startErr = none)
    (hrace : env.race = RaceWinner.exited none) :
    Run cfg args env =
      ((false, none), [Event.startChild, Event.waitedChild, Event.stopWatcher]) := by
  rw [run_of_wait cfg args env b hbin hens hstart, wfuoe_exited_clean cfg env hrace]
  simp

/-- Outcome of Run on a failed child exit with no matching artifact. -/
lemma run_exited_nomatch (cfg : Config) (args : List String) (env : RunEnv) (b : String) (e : Err)
    (hbin : env.currentBin = Except.ok b)
    (hens : env.ensureBinary = none)
    (hstart : env.startErr = none)
    (hrace : env.race = RaceWinner.exited (some e))
    (hchk : env.checkUpdate cfg.UpgradeName = false) :
    Run cfg args env =
      ((false, some e), [Event.startChild, Event.waitedChild, Event.stopWatcher]) := by
  rw [run_of_wait cfg args env b hbin hens hstart,
    wfuoe_exited_nomatch cfg env e hrace hchk]
  simp

/-- Outcome of Run when the MonitorUpdate arm wins the race. -/
lemma run_upgradeFirst (cfg : Config) (args : List String) (env : RunEnv) (b : String)
    (hbin : env.currentBin = Except.ok b)
    (hens : env.ensureBinary = none)
    (hstart : env.startErr = none)
    (hrace : env.race = RaceWinner.upgradeFirst) :
    Run cfg args env =
      match (doBackup cfg env.now env.copyErr).1 with
      | some e =>
        ((false, some e),
          Event.startChild :: Event.killChild :: (doBackup cfg env.now env.copyErr).2)
      | none =>
        ((true, env.doUpgradeErr),
          Event.startChild :: Event.killChild ::
            ((doBackup cfg env.now env.copyErr).2 ++ [Event.upgradeStep])) := by
  rw [run_of_wait cfg args env b hbin hens hstart, wfuoe_upgradeFirst cfg env hrace]
  cases hb : (doBackup cfg env.now env.copyErr).1 <;> simp [hb]

/-- Outcome of Run on a failed child exit subsumed by a matching
synchronous re-check. -/
lemma run_exited_match (cfg : Config) (args : List String) (env : RunEnv) (b : String) (e : Err)
    (hbin : env.currentBin = Except.ok b)
    (hens : env.ensureBinary = none)
    (hstart : env.startErr = none)
    (hrace : env.race = RaceWinner.exited (some e))
    (hchk : env.checkUpdate cfg.UpgradeName = true) :
    Run cfg args env =
      match (doBackup cfg env.now env.copyErr).1 with
      | some be =>
        ((false, some be),
          Event.startChild :: Event.waitedChild :: Event.stopWatcher ::
            (doBackup cfg env.now env.copyErr).2)
      | none =>
        ((true, env.doUpgradeErr),
          Event.startChild :: Event.waitedChild :: Event.stopWatcher ::
            ((doBackup cfg env.now env.copyErr).2 ++ [Event.upgradeStep])) := by
  rw [run_of_wait cfg args env b hbin hens hstart,
    wfuoe_exited_match cfg env e hrace hchk]
  cases hb : (doBackup cfg env.now env.copyErr).1 <;> simp [hb]

/-- Events emitted by doBackup never include a wait on the child. -/
lemma waited_not_in_doBackup (cfg : Config) (now : Date) (c : Option Err) :
    Event.waitedChild ∉ (doBackup cfg now c).2 := by
  unfold doBackup
  cases cfg.UnsafeSkipBackup <;> cases c <;> simp

/-- C1: for every run in which the child exits with a non-nil error while
a matching upgrade artifact exists for the expected upgrade name at that
moment, the synchronous re-check subsumes the crash and
WaitForUpgradeOrExit returns (true, nil); the process error is
discarded, not surfaced. -/
theorem C1_recheck_subsumes_crash (cfg : Config) (env : RunEnv) (e : Err)
    (hrace : env.race = RaceWinner.exited (some e))
    (hchk : env.checkUpdate cfg.UpgradeName = true) :
    (WaitForUpgradeOrExit cfg env).1 = (true, none) := by
  rw [wfuoe_exited_match cfg env e hrace hchk]

/-- Witness for C1 at a concrete crashed run with a matching artifact. -/
theorem C1_witness :
    (WaitForUpgradeOrExit cfgA envCrashMatch).1 = (true, none) :=
  C1_recheck_subsumes_crash cfgA envCrashMatch "panic in upgrade handler" rfl rfl

/-- C2: evaluation at the failing input. Starting from a record already
holding the non-nil error "first" (and no trigger), a second SetError
with the non-nil error "second" overwrites the recorded error, because
the guard in the source checks only that info is nil; this contradicts
the first-writer-wins claim and the comment on SetError itself, which
says it sets the first error. -/
theorem C2_setError_second_error_overwrites :
    WaitResult.SetError { err := some "first", info := none } (some "second")
      = { err := some "second", info := none } ∧
    ({ err := some "second", info := none } : WaitResult)
      ≠ { err := some "first", info := none } := by
  constructor
  · decide
  · decide

/-- C3 counterexample: a run taking the upgrade path through the
notification arm performs the backup copy and returns needs-restart
without any wait on the child appearing on the main control path, so
the claimed backup-after-child-termination ordering fails: the kill is
issued best-effort and the copy starts immediately. -/
theorem C3_counterexample :
    (Run cfgA ["start"] envUpg).1.1 = true ∧
    Event.waitedChild ∉ (Run cfgA ["start"] envUpg).2 ∧
    Event.copyDir "/data/home/data" "/data/home/data-backup-03-55-5000"
      ∈ (Run cfgA ["start"] envUpg).2 := by
  decide

/-- C3 as amended: on the upgrade path entered through child exit plus a
matching re-check, the child has been waited on (and the watcher
stopped) before the backup copy begins and before Run returns; on the
upgrade path entered through the notification the child is only sent a
best-effort kill, with no wait on the main path, before the backup
begins; in both cases the backup step lies in the trace before the
needs-restart return. -/
theorem C3_amended_wait_ordering (cfg : Config) (args : List String) (env : RunEnv) (b : String)
    (hbin : env.currentBin = Except.ok b)
    (hens : env.ensureBinary = none)
    (hstart : env.startErr = none)
    (hrestart : (Run cfg args env).1.1 = true) :
    (env.race = RaceWinner.upgradeFirst →
      (Run cfg args env).2 =
        Event.startChild :: Event.killChild ::
          ((doBackup cfg env.now env.copyErr).2 ++ [Event.upgradeStep]) ∧
      Event.waitedChild ∉ (Run cfg args env).2) ∧
    (∀ e, env.race = RaceWinner.exited e →
      (Run cfg args env).2 =
        Event.startChild :: Event.waitedChild :: Event.stopWatcher ::
          ((doBackup cfg env.now env.copyErr).2 ++ [Event.upgradeStep])) := by
  constructor
  · intro hrace
    have hrun := run_upgradeFirst cfg args env b hbin hens hstart hrace
    cases hb : (doBackup cfg env.now env.copyErr).1 with
    | some be => rw [hrun, hb] at hrestart; simp at hrestart
    | none =>
      rw [hb] at hrun
      refine ⟨by rw [hrun], ?_⟩
      rw [hrun]
      intro hmem
      simp only [List.mem_cons, List.mem_append, List.mem_singleton] at hmem
      rcases hmem with h | h | h | h | h
      · exact Event.noConfusion h
      · exact Event.noConfusion h
      · exact waited_not_in_doBackup cfg env.now env.copyErr h
      · exact Event.noConfusion h
      · exact absurd h (List.not_mem_nil _)
  · intro e hrace
    cases e with
    | none =>
      rw [run_exited_clean cfg args env b hbin hens hstart hrace] at hrestart
      simp at hrestart
    | some err =>
      cases hchk : env.checkUpdate cfg.UpgradeName with
      | false =>
        rw [run_exited_nomatch cfg args env b err hbin hens hstart hrace hchk] at hrestart
        simp at hrestart
      | true =>
        have hrun := run_exited_match cfg args env b err hbin hens hstart hrace hchk
        cases hb : (doBackup cfg env.now env.copyErr).1 with
        | some be => rw [hrun, hb] at hrestart; simp at hrestart
        | none => rw [hb] at hrun; rw [hrun]

/-- Witness for the amended C3 at a concrete crash-then-match run. -/
theorem C3_amended_witness :
    (Run cfgA ["start"] envCrashMatch).2 =
      Event.startChild :: Event.waitedChild :: Event.stopWatcher ::
        ((doBackup cfgA envCrashMatch.now envCrashMatch.copyErr).2 ++ [Event.upgradeStep]) :=
  (C3_amended_wait_ordering cfgA ["start"] envCrashMatch "/bin/gaiad" rfl rfl rfl
    (by decide)).2 (some "panic in upgrade handler") rfl

/-- C4 counterexample: two runs in which the upgrade notification fires
before child exit and Run does not return (true, nil). In the first the
DoUpgrade step fails, so Run reports needsRestart=true with a non-nil
error; in the second the backup copy fails, so Run reports
needsRestart=false with the backup error. -/
theorem C4_counterexample :
    envUpgFail.race = RaceWinner.upgradeFirst ∧
    (Run cfgA ["start"] envUpgFail).1 = (true, some "upgrade binary not found") ∧
    envCopyFail.race = RaceWinner.upgradeFirst ∧
    (Run cfgA ["start"] envCopyFail).1 =
      (false, some "error while taking data backup: permission denied") := by
  decide

/-- C4 as amended: when the upgrade notification fires before the child
exits, Run kills the child, the kill result never changes the outcome,
and the backup step runs unless disabled; if the backup step succeeds
Run returns (true, e) with e the result of the DoUpgrade step, so the
error is nil exactly when that step succeeds, and if the backup step
fails Run returns (false, that backup error). -/
theorem C4_amended_upgrade_first (cfg : Config) (args : List String) (env : RunEnv) (b : String)
    (hbin : env.currentBin = Except.ok b)
    (hens : env.ensureBinary = none)
    (hstart : env.startErr = none)
    (hrace : env.race = RaceWinner.upgradeFirst) :
    Event.killChild ∈ (Run cfg args env).2 ∧
    (∀ k, Run cfg args { env with killErr := k } = Run cfg args env) ∧
    ((doBackup cfg env.now env.copyErr).1 = none →
      (Run cfg args env).1 = (true, env.doUpgradeErr)) ∧
    (∀ e, (doBackup cfg env.now env.copyErr).1 = some e →
      (Run cfg args env).1 = (false, some e)) := by
  have hrun := run_upgradeFirst cfg args env b hbin hens hstart hrace
  refine ⟨?_, ?_, ?_, ?_⟩
  · rw [hrun]
    cases hb : (doBackup cfg env.now env.copyErr).1 <;> simp
  · intro k; rfl
  · intro hb; rw [hrun, hb]
  · intro e hb; rw [hrun, hb]

/-- Witness for the amended C4 at a concrete fully successful upgrade run. -/
theorem C4_amended_witness :
    (Run cfgA ["start"] envUpg).1 = (true, envUpg.doUpgradeErr) :=
  (C4_amended_upgrade_first cfgA ["start"] envUpg "/bin/gaiad" rfl rfl rfl rfl).2.2.1
    (by decide)

/-- C5: evaluation at the failing input. With home /data/home and wall
clock March 5 2021, doBackup copies /data/home/data to
/data/home/data-backup-03-55-5000: the layout string "01-22-2000" is not
the Go reference layout for MM-DD-YYYY (which is "01-02-2006"), so the
destination suffix is not the current date (the year never appears and
the day digit is repeated), contradicting the comment in the source that
announces the format MM-DD-YYYY. -/
theorem C5_backup_destination_eval :
    (doBackup cfgA ⟨2021, 3, 5⟩ none).2 =
      [Event.copyDir "/data/home/data" "/data/home/data-backup-03-55-5000"] ∧
    goTimeFormat "01-22-2000" ⟨2021, 3, 5⟩ ≠ "03-05-2021" := by
  decide

/-- C6: for every run in which the child exits with a non-nil error and
the synchronous re-check does not match, Run returns (false, e) with e
exactly the exit error of the child, and no backup copy appears in the
trace of that run. -/
theorem C6_crash_no_match_surfaces_error (cfg : Config) (args : List String)
    (env : RunEnv) (b : String) (e : Err)
    (hbin : env.currentBin = Except.ok b)
    (hens : env.ensureBinary = none)
    (hstart : env.startErr = none)
    (hrace : env.race = RaceWinner.exited (some e))
    (hchk : env.checkUpdate cfg.UpgradeName = false) :
    (Run cfg args env).1 = (false, some e) ∧
    ∀ s d, Event.copyDir s d ∉ (Run cfg args env).2 := by
  rw [run_exited_nomatch cfg args env b e hbin hens hstart hrace hchk]
  refine ⟨rfl, ?_⟩
  intro s d
  simp

/-- Witness for C6 at a concrete crashed run without a matching artifact. -/
theorem C6_witness :
    (Run cfgA ["start"] envCrashNoMatch).1 = (false, some "exit status 1") :=
  (C6_crash_no_match_surfaces_error cfgA ["start"] envCrashNoMatch "/bin/gaiad"
    "exit status 1" rfl rfl rfl rfl rfl).1

/-- C7: for every run in which the child exits cleanly and no upgrade
notification has fired, Run returns (false, nil), the watcher is stopped
on that path, and no backup copy appears in the trace. -/
theorem C7_clean_exit_no_upgrade (cfg : Config) (args : List String)
    (env : RunEnv) (b : String)
    (hbin : env.currentBin = Except.ok b)
    (hens : env.ensureBinary = none)
    (hstart : env.startErr = none)
    (hrace : env.race = RaceWinner.exited none) :
    (Run cfg args env).1 = (false, none) ∧
    Event.stopWatcher ∈ (Run cfg args env).2 ∧
    ∀ s d, Event.copyDir s d ∉ (Run cfg args env).2 := by
  rw [run_exited_clean cfg args env b hbin hens hstart hrace]
  refine ⟨rfl, by simp, ?_⟩
  intro s d
  simp

/-- Witness for C7 at a concrete clean short-lived run. -/
theorem C7_witness :
    (Run cfgA [] envClean).1 = (false, none) :=
  (C7_clean_exit_no_upgrade cfgA [] envClean "/bin/gaiad" rfl rfl rfl rfl).1

/-- C8: with UnsafeSkipBackup set, doBackup is a no-op returning nil with
no copy attempted and no destination created, and the result of Run does
not depend on the copy result at all, so the restart path can neither
block on nor fail from copy errors. -/
theorem C8_skip_backup_noop (cfg : Config) (args : List String) (env : RunEnv)
    (c x y : Option Err)
    (h : cfg.UnsafeSkipBackup = true) :
    doBackup cfg env.now c = (none, []) ∧
    Run cfg args { env with copyErr := x } = Run cfg args { env with copyErr := y } := by
  have hb : ∀ c₀ : Option Err, doBackup cfg env.now c₀ = (none, []) := by
    intro c₀; simp [doBackup, h]
  have hw : ∀ c₀ : Option Err,
      WaitForUpgradeOrExit cfg { env with copyErr := c₀ } = WaitForUpgradeOrExit cfg env :=
    fun _ => rfl
  refine ⟨hb c, ?_⟩
  unfold Run
  simp only [hb, hw]

/-- Witness for C8: with backups disabled, a failing copy collaborator
yields the same run outcome as a succeeding one. -/
theorem C8_witness :
    Run cfgSkip ["start"] { envUpg with copyErr := none } =
      Run cfgSkip ["start"] { envUpg with copyErr := some "disk full" } :=
  (C8_skip_backup_noop cfgSkip ["start"] envUpg none none (some "disk full") rfl).2

/-- C9: the relay forwards exactly the first delivered termination signal,
identically and exactly once regardless of any later signals, and a
forwarding failure ends the whole supervisor through log.Fatal instead
of continuing the run. -/
theorem C9_signal_relay_once (s : GoSignal) (rest : List GoSignal)
    (f : GoSignal → Option Err) :
    (signalRelay (s :: rest) f).1 = [s] ∧
    (f s = none → (signalRelay (s :: rest) f).2 = RelayOutcome.forwarded s) ∧
    (∀ e, f s = some e → (signalRelay (s :: rest) f).2 = RelayOutcome.fatal s e) := by
  refine ⟨?_, ?_, ?_⟩
  · cases hf : f s <;> simp [signalRelay, hf]
  · intro hf; simp [signalRelay, hf]
  · intro e hf; simp [signalRelay, hf]

/-- Witness for C9 at a concrete failing forward. -/
theorem C9_witness :
    (signalRelay [GoSignal.SIGTERM, GoSignal.SIGQUIT]
        (fun _ => some "os: process already finished")).2 =
      RelayOutcome.fatal GoSignal.SIGTERM "os: process already finished" :=
  (C9_signal_relay_once GoSignal.SIGTERM [GoSignal.SIGQUIT]
    (fun _ => some "os: process already finished")).2.2 "os: process already finished" rfl

/-- C10: SetError writes only the err field: the info field is never
modified, a nil argument leaves the record unchanged, and in fact any
call in which info is already set or the argument is nil is the
identity, so only a non-nil error while info is nil causes any mutation. -/
theorem C10_setError_frame (u : WaitResult) (e : Option Err) :
    (WaitResult.SetError u e).info = u.info ∧
    WaitResult.SetError u none = u ∧
    (u.info ≠ none ∨ e = none → WaitResult.SetError u e = u) := by
  refine ⟨?_, ?_, ?_⟩
  · unfold WaitResult.SetError
    split <;> rfl
  · unfold WaitResult.SetError
    simp
  · intro h
    unfold WaitResult.SetError
    rcases h with h | h
    · rw [if_neg]
      intro hc
      exact h hc.1
    · subst h
      rw [if_neg]
      intro hc
      exact hc.2 rfl

/-- Witness for C10: a late error never clobbers a recorded trigger. -/
theorem C10_witness :
    WaitResult.SetError { err := none, info := some ⟨"v2", "upgrade info"⟩ } (some "late error")
      = { err := none, info := some ⟨"v2", "upgrade info"⟩ } :=
  (C10_setError_frame { err := none, info := some ⟨"v2", "upgrade info"⟩ }
    (some "late error")).2.2 (Or.inl (by decide))

end Cosmovisor
